import Mathlib

/-!
Shallow embedding of the Manohar-1305/log_analyzer repository
(src/log_analyzer.py: metrics collector / threshold evaluator / reporter;
src/log_analyzer_1.py: log scanner / reporter).

Floats in the source are modelled by rationals (ℚ); the comparisons in the
threshold evaluator and the percentage arithmetic of the log scanner involve
only exact decimal values, so no rounding behaviour is lost.  External
command output (`subprocess.getoutput`) is modelled as the string the call
returns; in CPython this call never raises — it runs the command through the
shell and returns captured stdout/stderr even when the command is missing.
-/

namespace LogAnalyzer

/-! ## Python string helpers -/

/-- Python whitespace characters stripped by `int(...)` / `float(...)` and
by `str.strip()`. -/
def isPySpace (c : Char) : Bool :=
  c = ' ' || c = '\t' || c = '\n' || c = '\r' || c = '\x0b' || c = '\x0c'

/-- `str.strip()` on a character list: drop whitespace at both ends. -/
def pyStrip (cs : List Char) : List Char :=
  ((cs.dropWhile isPySpace).reverse.dropWhile isPySpace).reverse

def isDigitChar (c : Char) : Bool := '0' ≤ c && c ≤ '9'

/-- Value of a non-empty list of decimal digits. -/
def digitsToNat (cs : List Char) : Nat :=
  cs.foldl (fun a c => a * 10 + (c.toNat - '0'.toNat)) 0

/-- Python `int(s)`: optional surrounding whitespace, optional sign, then a
non-empty run of decimal digits; anything else raises `ValueError`
(modelled as `none`).  Underscore digit separators are not modelled — no
input in this program carries them. -/
def pyParseInt (cs : List Char) : Option Int :=
  match pyStrip cs with
  | '-' :: rest =>
      if rest ≠ [] ∧ rest.all isDigitChar then some (-(digitsToNat rest : Int)) else none
  | '+' :: rest =>
      if rest ≠ [] ∧ rest.all isDigitChar then some (digitsToNat rest : Int) else none
  | t =>
      if t ≠ [] ∧ t.all isDigitChar then some (digitsToNat t : Int) else none

/-- Fractional digits `ds` read after a decimal point: their value in ℚ. -/
def fracValue (ds : List Char) : ℚ :=
  (digitsToNat ds : ℚ) / ((10 : ℚ) ^ ds.length)

/-- Python `float(s)` restricted to the plain decimal forms the program's
commands can emit: optional whitespace and sign, digits with an optional
single point (`12`, `12.`, `12.5`, `.5`).  Exponent, `inf` and `nan`
spellings are not modelled — the awk pipelines never print them. -/
def pyParseFloat (cs : List Char) : Option ℚ :=
  let core : List Char → Option ℚ := fun t =>
    match t.span isDigitChar with
    | (intPart, rest) =>
      match rest with
      | [] => if intPart ≠ [] then some (digitsToNat intPart : ℚ) else none
      | '.' :: fracPart =>
          if fracPart.all isDigitChar ∧ (intPart ≠ [] ∨ fracPart ≠ []) then
            some ((digitsToNat intPart : ℚ) + fracValue fracPart)
          else none
      | _ => none
  match pyStrip cs with
  | '-' :: rest => (core rest).map (fun q => -q)
  | '+' :: rest => core rest
  | t => core t

/-! ## Data model: Snapshot (src/log_analyzer.py, monitor_system) -/

structure Snapshot where
  cpu_usage_percent : ℚ
  memory_usage_percent : ℚ
  disk_usage : String
  cpu_temperature_celsius : Option ℚ
  service_status : String
deriving DecidableEq, Repr

/-! ## Metrics collector (src/log_analyzer.py lines 50-84)

Each getter receives the string `subprocess.getoutput` handed back for its
command and produces the field value.  `getoutput` itself never raises, so
the failure mode a getter sees is an unparseable string. -/

/-- `get_cpu_usage`: `float(output)`, defaulting to `0.0` on parse failure. -/
def get_cpu_usage (output : String) : ℚ :=
  (pyParseFloat output.toList).getD 0

/-- `get_memory_usage`: `float(output)`, defaulting to `0.0` on parse failure. -/
def get_memory_usage (output : String) : ℚ :=
  (pyParseFloat output.toList).getD 0

/-- `get_disk_usage`: `output.strip()`, no error handling at all. -/
def get_disk_usage (output : String) : String :=
  ⟨pyStrip output.toList⟩

/-- `check_cpu_temperature`: `int(temp_raw) / 1000.0`, `None` when the
int conversion fails. -/
def check_cpu_temperature (output : String) : Option ℚ :=
  (pyParseInt output.toList).map (fun n => (n : ℚ) / 1000)

/-- `check_service_status`: the `try` body is `getoutput(...)` followed by
`.strip()`, neither of which raises, so the `except: return "unknown"`
branch is unreachable and the stripped output is always returned. -/
def check_service_status (output : String) : String :=
  ⟨pyStrip output.toList⟩

/-- `monitor_system`'s collection phase: one getter per field, assembled
into the summary dict.  A total function of the five command outputs —
no combination of outputs aborts the run. -/
def collectSnapshot (cpuOut memOut diskOut tempOut svcOut : String) : Snapshot :=
  { cpu_usage_percent := get_cpu_usage cpuOut
    memory_usage_percent := get_memory_usage memOut
    disk_usage := get_disk_usage diskOut
    cpu_temperature_celsius := check_cpu_temperature tempOut
    service_status := check_service_status svcOut }

/-! ## Threshold evaluator (src/log_analyzer.py lines 112-134) -/

/-- `int(disk.replace('%', ''))` with `except: pass` leaving the default 0:
`replace('%', '')` deletes every percent sign, then Python `int` parses. -/
def diskPercent (disk : String) : Int :=
  (pyParseInt (disk.toList.filter (fun c => c ≠ '%'))).getD 0

/-- The temperature guard `cpu_temp is not None and cpu_temp > 70`. -/
def tempHigh (t : Option ℚ) : Bool :=
  match t with
  | some v => decide (v > 70)
  | none => false

/-- The alert-building block of `monitor_system`, transcribed statement by
statement: `alerts` starts empty and each threshold check appends its
message. -/
def monitorAlerts (s : Snapshot) : List String :=
  let alerts : List String := []
  let alerts := if tempHigh s.cpu_temperature_celsius then
      alerts ++ ["WARNING: CPU temperature is high"] else alerts
  let disk_percent := diskPercent s.disk_usage
  let alerts := if disk_percent > 90 then
      alerts ++ ["ERROR: Disk usage exceeds threshold"] else alerts
  let alerts := if s.service_status ≠ "active" then
      alerts ++ ["CRITICAL: Service failed to start"] else alerts
  let alerts := if s.cpu_usage_percent > 50 then
      alerts ++ ["WARNING: CPU usage is above 50%"] else alerts
  let alerts := if s.memory_usage_percent > 70 then
      alerts ++ ["WARNING: Memory usage is above 70%"] else alerts
  alerts

/-- The spec's fixed rule table (§4.2), written independently of the code:
each row is a condition on the Snapshot and the alert it emits. -/
def ruleTable (s : Snapshot) : List (Bool × String) :=
  [ (tempHigh s.cpu_temperature_celsius, "WARNING: CPU temperature is high"),
    (decide (diskPercent s.disk_usage > 90), "ERROR: Disk usage exceeds threshold"),
    (decide (s.service_status ≠ "active"), "CRITICAL: Service failed to start"),
    (decide (s.cpu_usage_percent > 50), "WARNING: CPU usage is above 50%"),
    (decide (s.memory_usage_percent > 70), "WARNING: Memory usage is above 70%") ]

/-- Spec-side evaluator: exactly the messages of the rows whose condition
holds, in table order, no short-circuiting. -/
def ruleAlerts (s : Snapshot) : List String :=
  ((ruleTable s).filter (fun r => r.1)).map (fun r => r.2)

/-- The scenario Snapshot of §8:
`{cpu=55, memory=40, disk="95%", temp=75, service="inactive"}`. -/
def scenarioSnapshot : Snapshot :=
  { cpu_usage_percent := 55
    memory_usage_percent := 40
    disk_usage := "95%"
    cpu_temperature_celsius := some 75
    service_status := "inactive" }

/-- C1: the evaluator returns exactly the alerts whose conditions hold from
the fixed rule table, in the fixed evaluation order with no
short-circuiting, and the scenario Snapshot yields exactly the four alerts
CPU-temp, disk-threshold, service-inactive, CPU-above-50 (no memory
alert). -/
theorem monitorAlerts_eq_ruleAlerts_and_scenario :
    (∀ s : Snapshot, monitorAlerts s = ruleAlerts s) ∧
    monitorAlerts scenarioSnapshot =
      ["WARNING: CPU temperature is high",
       "ERROR: Disk usage exceeds threshold",
       "CRITICAL: Service failed to start",
       "WARNING: CPU usage is above 50%"] := by
  constructor
  · intro s
    by_cases h1 : tempHigh s.cpu_temperature_celsius <;>
      by_cases h2 : diskPercent s.disk_usage > 90 <;>
        by_cases h3 : s.service_status = "active" <;>
          by_cases h4 : s.cpu_usage_percent > 50 <;>
            by_cases h5 : s.memory_usage_percent > 70 <;>
              simp [monitorAlerts, ruleAlerts, ruleTable, h1, h2, h3, h4, h5]
  · decide

/-! ## Log scanner (src/log_analyzer_1.py, analyze_logs lines 100-123)

`keyword.lower() in line.lower()`: ASCII lowercasing followed by substring
containment.  The Counter is modelled as a total function `String → Nat`
that starts at zero everywhere, updated by the same nested loop as the
source (outer over lines, inner over the keyword list). -/

def toLowerChar (c : Char) : Char :=
  if 'A' ≤ c ∧ c ≤ 'Z' then Char.ofNat (c.toNat + 32) else c

def lowerChars (s : String) : List Char := s.toList.map toLowerChar

/-- Is the first list a prefix of the second? -/
def isPrefixChars : List Char → List Char → Bool
  | [], _ => true
  | _ :: _, [] => false
  | a :: as, b :: bs => a = b && isPrefixChars as bs

/-- Python `needle in haystack` on strings: contiguous substring test
(`"" in s` is true). -/
def isSubstr (needle : List Char) : List Char → Bool
  | [] => needle.isEmpty
  | c :: rest => isPrefixChars needle (c :: rest) || isSubstr needle rest

/-- The line test of the scan loop: `keyword.lower() in line.lower()`. -/
def lineMatches (kw line : String) : Bool :=
  isSubstr (lowerChars kw) (lowerChars line)

/-- `counts[keyword] += 1` on the Counter-as-function. -/
def bump (f : String → Nat) (k : String) : String → Nat :=
  fun x => if x = k then f x + 1 else f x

/-- The nested counting loop of `analyze_logs`:
`for line in lines: for keyword in keywords: if match: counts[keyword] += 1`. -/
def scanCounts (lines kws : List String) : String → Nat :=
  lines.foldl
    (fun f line =>
      kws.foldl (fun g kw => if lineMatches kw line then bump g kw else g) f)
    (fun _ => 0)

/-- Keyword list with later duplicates removed, keeping first occurrences:
the key order of the Python summary dict built by iterating the keyword
list. -/
def firstDedup : List String → List String
  | [] => []
  | k :: rest => k :: (firstDedup rest).filter (fun x => x ≠ k)

/-- `total = sum(counts.values())`: the Counter holds a key exactly for the
keywords the loop incremented; summing the counts over the distinct
keywords of the list adds only zeros beyond those keys, so the sums agree. -/
def totalCount (lines kws : List String) : Nat :=
  ((firstDedup kws).map (scanCounts lines kws)).sum

/-- Line 117: `percent = ((count / total) * 100) if total > 0 else 0`. -/
def percentOf (lines kws : List String) (k : String) : ℚ :=
  if totalCount lines kws > 0 then
    ((scanCounts lines kws k : ℚ) / (totalCount lines kws : ℚ)) * 100
  else 0

/-! ### Closed form of the counting loop -/

/-- One line's pass over the keyword list raises the count of `k` by the
multiplicity of `k` in the list when the line matches `k`, else leaves it. -/
theorem innerFold_apply (line k : String) :
    ∀ (kws : List String) (g : String → Nat),
      (kws.foldl (fun g kw => if lineMatches kw line then bump g kw else g) g) k
        = g k + (if lineMatches k line then kws.count k else 0)
  | [], g => by simp
  | kw :: rest, g => by
    rw [List.foldl_cons, innerFold_apply line k rest]
    by_cases hk : k = kw
    · subst hk
      by_cases hm : lineMatches k line <;>
        simp [hm, bump, List.count_cons] <;> omega
    · have hk2 : ¬ (kw = k) := fun h => hk h.symm
      by_cases hm : lineMatches kw line <;>
        by_cases hm2 : lineMatches k line <;>
          simp [bump, hk, hk2, hm, hm2, List.count_cons]

/-- The whole scan: each keyword's count is (matching lines) × (multiplicity
of the keyword in the list). -/
theorem scanFold_apply (kws : List String) (k : String) :
    ∀ (lines : List String) (f : String → Nat),
      (lines.foldl
        (fun f line =>
          kws.foldl (fun g kw => if lineMatches kw line then bump g kw else g) f)
        f) k
      = f k + lines.countP (fun l => lineMatches k l) * kws.count k
  | [], f => by simp
  | line :: rest, f => by
    rw [List.foldl_cons, scanFold_apply kws k rest, innerFold_apply line k kws]
    rw [List.countP_cons]
    by_cases hm : lineMatches k line <;> simp [hm] <;> ring

theorem scanCounts_eq (lines kws : List String) (k : String) :
    scanCounts lines kws k
      = lines.countP (fun l => lineMatches k l) * kws.count k := by
  rw [scanCounts, scanFold_apply]
  omega

theorem mem_firstDedup (x : String) : ∀ (l : List String),
    x ∈ firstDedup l ↔ x ∈ l
  | [] => by simp [firstDedup]
  | k :: rest => by
    by_cases hx : x = k
    · subst hx; simp [firstDedup]
    · simp [firstDedup, hx, List.mem_filter, mem_firstDedup x rest]

theorem nodup_firstDedup : ∀ (l : List String), (firstDedup l).Nodup
  | [] => by simp [firstDedup]
  | k :: rest => by
    rw [firstDedup]
    refine List.Nodup.cons ?_ ((nodup_firstDedup rest).filter _)
    intro hk
    have hcontra := (List.mem_filter.mp hk).2
    simp at hcontra

/-! ### The scanner claims -/

/-- The §8 scenario log file and keyword list. -/
def demoLines : List String := ["ERROR disk full", "warn: low memory", "all good"]

def demoKeywords : List String := ["error", "warn"]

/-- C2: with a positive total, each keyword's percentage is
count / total × 100 and the percentages over the summary's keywords sum to
exactly 100; with total 0 every percentage is 0. -/
theorem percentages_sum_to_100 (lines kws : List String) :
    (0 < totalCount lines kws →
      (∀ k, percentOf lines kws k
          = (scanCounts lines kws k : ℚ) / (totalCount lines kws : ℚ) * 100) ∧
      ((firstDedup kws).map (percentOf lines kws)).sum = 100) ∧
    (totalCount lines kws = 0 → ∀ k, percentOf lines kws k = 0) := by
  constructor
  · intro hT
    have hT0 : (totalCount lines kws : ℚ) ≠ 0 := Nat.cast_ne_zero.mpr hT.ne'
    have hfun : percentOf lines kws = fun k =>
        (scanCounts lines kws k : ℚ) / (totalCount lines kws : ℚ) * 100 := by
      funext k
      simp only [percentOf]
      rw [if_pos hT]
    refine ⟨fun k => by rw [hfun], ?_⟩
    rw [hfun]
    have hstep : (fun k =>
          (scanCounts lines kws k : ℚ) / (totalCount lines kws : ℚ) * 100)
        = (fun k =>
          (scanCounts lines kws k : ℚ) * (100 / (totalCount lines kws : ℚ))) := by
      funext k
      rw [div_mul_eq_mul_div, mul_div_assoc]
    rw [hstep, List.sum_map_mul_right]
    have hTsum : ((firstDedup kws).map (fun k => (scanCounts lines kws k : ℚ))).sum
        = (totalCount lines kws : ℚ) := by
      rw [totalCount, Nat.cast_list_sum, List.map_map]
      rfl
    rw [hTsum, mul_comm, div_mul_cancel₀ _ hT0]
  · intro h0 k
    simp [percentOf, h0]

/-- C3: each keyword is counted by case-insensitive substring match over all
lines, keywords matching a line independently of one another, and on the §8
scenario file with keywords ["error", "warn"] the scan yields error: 1
(50%), warn: 1 (50%), total 2. -/
theorem scan_is_caseless_substring_count :
    (∀ (lines kws : List String) (k : String), kws.Nodup → k ∈ kws →
        scanCounts lines kws k = lines.countP (fun l => lineMatches k l)) ∧
    scanCounts demoLines demoKeywords "error" = 1 ∧
    scanCounts demoLines demoKeywords "warn" = 1 ∧
    totalCount demoLines demoKeywords = 2 ∧
    percentOf demoLines demoKeywords "error" = 50 ∧
    percentOf demoLines demoKeywords "warn" = 50 := by
  refine ⟨?_, by decide, by decide, by decide, ?_, ?_⟩
  · intro lines kws k hnd hk
    rw [scanCounts_eq, List.count_eq_one_of_mem hnd hk, mul_one]
  · have h1 : scanCounts demoLines demoKeywords "error" = 1 := by decide
    have hT : totalCount demoLines demoKeywords = 2 := by decide
    simp only [percentOf, h1, hT]
    norm_num
  · have h1 : scanCounts demoLines demoKeywords "warn" = 1 := by decide
    have hT : totalCount demoLines demoKeywords = 2 := by decide
    simp only [percentOf, h1, hT]
    norm_num

/-- Witness for C3 at the scenario input. -/
theorem scan_is_caseless_substring_count_witness :
    demoKeywords.Nodup ∧ "warn" ∈ demoKeywords ∧
    scanCounts demoLines demoKeywords "warn"
      = demoLines.countP (fun l => lineMatches "warn" l) :=
  ⟨by decide, by decide,
    scan_is_caseless_substring_count.1 demoLines demoKeywords "warn"
      (by decide) (by decide)⟩

/-- Witness for C2 at the scenario input (total = 2 > 0). -/
theorem percentages_sum_to_100_witness :
    0 < totalCount demoLines demoKeywords ∧
    ((firstDedup demoKeywords).map (percentOf demoLines demoKeywords)).sum = 100 :=
  ⟨by decide, ((percentages_sum_to_100 demoLines demoKeywords).1 (by decide)).2⟩

/-- C9: with a duplicate-free keyword list, a keyword's count never exceeds
the number of lines — each line raises each keyword's count at most once,
however many times the keyword occurs inside the line. -/
theorem keyword_count_le_line_count (lines kws : List String) (k : String)
    (hnd : kws.Nodup) (hk : k ∈ kws) :
    scanCounts lines kws k ≤ lines.length := by
  rw [scanCounts_eq, List.count_eq_one_of_mem hnd hk, mul_one]
  exact List.countP_le_length _

/-- Witness for C9: a line holding "error" twice still counts once, and the
bound holds at the scenario input. -/
theorem keyword_count_le_line_count_witness :
    demoKeywords.Nodup ∧ "error" ∈ demoKeywords ∧
    scanCounts demoLines demoKeywords "error" ≤ demoLines.length :=
  ⟨by decide, by decide,
    keyword_count_le_line_count demoLines demoKeywords "error"
      (by decide) (by decide)⟩

/-! ## Reporter: persistence (src/log_analyzer.py lines 143-159 and
src/log_analyzer_1.py lines 126-137 share this read-modify-append-write) -/

/-- State of `summary.json` as the persist step sees it: absent on disk,
present but not valid JSON, or a valid top-level array of records.  Every
malformed content behaves alike — `json.load` raises and the `except`
resets `existing` to the empty list — so one constructor stands for all of
them. -/
inductive HistFile (α : Type) where
  | absent : HistFile α
  | malformed : HistFile α
  | valid : List α → HistFile α
deriving DecidableEq

/-- Lines 145-151: `existing = []`; when the file exists, `json.load` on
success, `existing = []` again on a parse error. -/
def loadHistory {α : Type} : HistFile α → List α
  | .absent => []
  | .malformed => []
  | .valid l => l

/-- Lines 152-159: append the new record and write the whole array back
(`json.dump` of a well-formed array reparses to itself). -/
def persist {α : Type} (h : HistFile α) (r : α) : HistFile α :=
  .valid (loadHistory h ++ [r])

/-- N successive runs, each persisting one record. -/
def persistAll {α : Type} (h : HistFile α) (rs : List α) : HistFile α :=
  rs.foldl persist h

/-- One entry of the metrics tool's history array (lines 152-156). -/
structure HistoryRecord where
  timestamp : String
  summary : Snapshot
  alerts : List String
deriving DecidableEq

theorem loadHistory_persistAll {α : Type} :
    ∀ (rs : List α) (h : HistFile α),
      loadHistory (persistAll h rs) = loadHistory h ++ rs
  | [], h => by simp [persistAll]
  | r :: rest, h => by
    rw [persistAll, List.foldl_cons]
    rw [show (List.foldl persist (persist h r) rest)
          = persistAll (persist h r) rest from rfl]
    rw [loadHistory_persistAll rest, persist, loadHistory]
    simp

/-- C5: persisting N records one run at a time, starting with no history
file, and then reloading yields the same N records in the same order with
identical field values. -/
theorem persist_roundtrip (rs : List HistoryRecord) :
    loadHistory (persistAll HistFile.absent rs) = rs := by
  rw [loadHistory_persistAll]
  rfl

/-- C6: a persist call on a malformed history file treats the prior content
as an empty array and writes a valid file holding exactly the one new
record. -/
theorem persist_malformed_overwrites (r : HistoryRecord) :
    persist HistFile.malformed r = HistFile.valid [r] ∧
    loadHistory (persist HistFile.malformed r) = [r] :=
  ⟨rfl, rfl⟩

/-! ## Reporter: email, beep (src/log_analyzer.py lines 26-48 and 138-174) -/

/-- The module-level environment credentials (`os.getenv` may return
`None`). -/
structure Creds where
  address : Option String
  password : Option String
deriving DecidableEq

/-- Python truthiness of an optional string: `None` and `""` are falsy. -/
def truthy : Option String → Bool
  | none => false
  | some s => !s.isEmpty

/-- `not EMAIL_ADDRESS or not EMAIL_PASSWORD` is the skip guard of
`send_email`. -/
def credsPresent (c : Creds) : Bool := truthy c.address && truthy c.password

/-- Observable outcome of one `send_email` call.  `deliveryOk` stands for
the SMTP transport succeeding; a transport error is caught and printed
(lines 34-40). -/
structure EmailResult where
  sent : Bool
  skipPrinted : Bool
  failurePrinted : Bool
deriving DecidableEq

def send_email (c : Creds) (deliveryOk : Bool) : EmailResult :=
  if !credsPresent c then ⟨false, true, false⟩
  else if deliveryOk then ⟨true, false, false⟩
  else ⟨false, false, true⟩

/-- CLI flags of the metrics tool after `parse_args` validation. -/
structure MonArgs where
  saveSummary : Bool
  getBeep : Bool
  getEmail : Bool
  recipient : Option String
deriving DecidableEq

/-- Observable side effects of one run of `main`'s reporter phase.
`exitCode` is the process exit status: `main` never raises past this point
and never calls `sys.exit`, so it is 0 on every path. -/
structure ReportEffects where
  persisted : Bool
  emailAttempted : Bool
  emailSent : Bool
  skipPrinted : Bool
  beeped : Bool
  exitCode : Nat
deriving DecidableEq

/-- `main` lines 142-174: persist when `--save-summary`; email when
`--get-email` AND the alert list is non-empty; beep when `--get-beep` AND
the alert list is non-empty. -/
def runReporter (args : MonArgs) (c : Creds) (deliveryOk : Bool)
    (hist : HistFile HistoryRecord) (timestamp : String)
    (summary : Snapshot) (alerts : List String) :
    ReportEffects × HistFile HistoryRecord :=
  let entry : HistoryRecord := ⟨timestamp, summary, alerts⟩
  let hist2 := if args.saveSummary then persist hist entry else hist
  let emailRes : Option EmailResult :=
    if args.getEmail && !alerts.isEmpty then some (send_email c deliveryOk)
    else none
  let beeped := args.getBeep && !alerts.isEmpty
  (⟨args.saveSummary, emailRes.isSome,
    (emailRes.map EmailResult.sent).getD false,
    (emailRes.map EmailResult.skipPrinted).getD false,
    beeped, 0⟩, hist2)

/-- C10: with an empty alert list no email is attempted or sent, even with
`--get-email`, a valid recipient and both credentials present; and persist
runs exactly when requested, alerts or not. -/
theorem email_needs_alerts (args : MonArgs) (c : Creds) (deliveryOk : Bool)
    (hist : HistFile HistoryRecord) (ts : String) (s : Snapshot)
    (hem : args.getEmail = true) (hrec : truthy args.recipient = true)
    (hcred : credsPresent c = true) :
    (runReporter args c deliveryOk hist ts s []).1.emailAttempted = false ∧
    (runReporter args c deliveryOk hist ts s []).1.emailSent = false ∧
    (∀ alerts : List String,
      (runReporter args c deliveryOk hist ts s alerts).1.persisted
        = args.saveSummary ∧
      (runReporter args c deliveryOk hist ts s alerts).1.emailAttempted
        = (args.getEmail && !alerts.isEmpty)) := by
  refine ⟨by simp [runReporter], by simp [runReporter], fun alerts => ⟨rfl, ?_⟩⟩
  cases he : args.getEmail && !alerts.isEmpty <;> simp [runReporter, he]

/-- Witness for C10 at a concrete run. -/
theorem email_needs_alerts_witness :
    (⟨true, true, true, some "ops@example.com"⟩ : MonArgs).getEmail = true ∧
    truthy (some "ops@example.com") = true ∧
    credsPresent ⟨some "monitor@example.com", some "pw"⟩ = true ∧
    (runReporter ⟨true, true, true, some "ops@example.com"⟩
        ⟨some "monitor@example.com", some "pw"⟩ true HistFile.absent
        "2024-01-01 00:00:00" scenarioSnapshot []).1.emailSent = false :=
  ⟨rfl, by decide, by decide,
    (email_needs_alerts ⟨true, true, true, some "ops@example.com"⟩
        ⟨some "monitor@example.com", some "pw"⟩ true HistFile.absent
        "2024-01-01 00:00:00" scenarioSnapshot rfl (by decide) (by decide)).2.1⟩

/-- C7 counterexample: a `--get-email` run with both credentials absent and
an empty alert list prints no skip message at all — `send_email` is never
reached, so nothing reports the missing configuration. -/
theorem missing_creds_skip_not_printed :
    (runReporter ⟨true, true, true, some "ops@example.com"⟩ ⟨none, none⟩ true
        HistFile.absent "2024-01-01 00:00:00"
        { cpu_usage_percent := 0, memory_usage_percent := 0,
          disk_usage := "10%", cpu_temperature_celsius := none,
          service_status := "active" }
        []).1.skipPrinted = false := by
  decide

/-- C7 (amended): with `--get-email` and either credential missing, no
email is sent, the run completes with exit code 0, and persist and beep run
exactly as requested; the skip message is printed precisely when the send
is attempted, i.e. when the alert list is non-empty. -/
theorem missing_creds_skips_email (args : MonArgs) (c : Creds)
    (deliveryOk : Bool) (hist : HistFile HistoryRecord) (ts : String)
    (s : Snapshot) (alerts : List String) (hem : args.getEmail = true)
    (hcred : credsPresent c = false) :
    (runReporter args c deliveryOk hist ts s alerts).1.emailSent = false ∧
    (runReporter args c deliveryOk hist ts s alerts).1.exitCode = 0 ∧
    (runReporter args c deliveryOk hist ts s alerts).1.persisted
      = args.saveSummary ∧
    (runReporter args c deliveryOk hist ts s alerts).2
      = (if args.saveSummary then persist hist ⟨ts, s, alerts⟩ else hist) ∧
    (runReporter args c deliveryOk hist ts s alerts).1.beeped
      = (args.getBeep && !alerts.isEmpty) ∧
    (runReporter args c deliveryOk hist ts s alerts).1.skipPrinted
      = (args.getEmail && !alerts.isEmpty) := by
  cases ha : alerts.isEmpty <;>
    simp [runReporter, send_email, hem, hcred, ha]

/-- Witness for the amended C7 at a concrete run with one alert. -/
theorem missing_creds_skips_email_witness :
    (⟨true, true, true, some "ops@example.com"⟩ : MonArgs).getEmail = true ∧
    credsPresent ⟨none, some "pw"⟩ = false ∧
    (runReporter ⟨true, true, true, some "ops@example.com"⟩ ⟨none, some "pw"⟩
        true HistFile.absent "2024-01-01 00:00:00" scenarioSnapshot
        ["WARNING: CPU usage is above 50%"]).1.emailSent = false :=
  ⟨rfl, by decide,
    (missing_creds_skips_email ⟨true, true, true, some "ops@example.com"⟩
        ⟨none, some "pw"⟩ true HistFile.absent "2024-01-01 00:00:00"
        scenarioSnapshot ["WARNING: CPU usage is above 50%"] rfl
        (by decide)).1⟩

/-! ## The log-analysis run (src/log_analyzer_1.py, analyze_logs lines
89-151).  The file read is modelled by `content`: `some lines` when the
file was opened and read, `none` when `open`/`read` raised (lines 93-98). -/

/-- CLI flags of the log tool after `parse_args` validation. -/
structure LogArgs where
  file : String
  keywords : List String
  saveSummary : Bool
  getBeep : Bool
  getEmail : Bool
  recipient : Option String
deriving DecidableEq

/-- One keyword's entry in the summary dict (lines 120-123).  The code
stores the formatted string `f"{percent:.1f}% {bar}"` of this exact
percentage value; the bar is a presentation derivative of it. -/
structure KeywordEntry where
  count : Nat
  percentage : ℚ
deriving DecidableEq

/-- `log_summary` (lines 108-123): the record the log tool persists. -/
structure LogSummary where
  timestamp : String
  log_file : String
  summary : List (String × KeywordEntry)
deriving DecidableEq

/-- Line 90: the fixed beep keyword list. -/
def alert_keywords : List String := ["warn", "fail", "critical", "error"]

/-- Observable outcome of one `analyze_logs` call; `exitCode` is the
process exit status after `main` returns (no path raises or calls
`sys.exit`, so it is 0 throughout). -/
structure LogOutcome where
  summaryOut : Option LogSummary
  persisted : Bool
  emailAttempted : Bool
  emailSent : Bool
  skipPrinted : Bool
  beeped : Bool
  exitCode : Nat
deriving DecidableEq

/-- `analyze_logs`: on a read failure the error is printed and the function
returns early — no summary, no persist, no email, no beep; otherwise the
scan runs, the summary is built over the keyword list (dict keys keep first
occurrences), persist honours `--save-summary`, email is attempted whenever
`--get-email` (even with all counts 0), and the beep fires when
`--get-beep` and some fixed alert keyword matched. -/
def analyze_logs (args : LogArgs) (content : Option (List String)) (c : Creds)
    (deliveryOk : Bool) (hist : HistFile LogSummary) (timestamp : String) :
    LogOutcome × HistFile LogSummary :=
  match content with
  | none => (⟨none, false, false, false, false, false, 0⟩, hist)
  | some lines =>
    let counts := scanCounts lines args.keywords
    let summ : LogSummary :=
      ⟨timestamp, args.file,
        (firstDedup args.keywords).map fun k =>
          (k, ⟨counts k, percentOf lines args.keywords k⟩)⟩
    let hist2 := if args.saveSummary then persist hist summ else hist
    let emailRes : Option EmailResult :=
      if args.getEmail then some (send_email c deliveryOk) else none
    let beeped := args.getBeep && alert_keywords.any (fun k => counts k > 0)
    (⟨some summ, args.saveSummary, emailRes.isSome,
      (emailRes.map EmailResult.sent).getD false,
      (emailRes.map EmailResult.skipPrinted).getD false,
      beeped, 0⟩, hist2)

/-- C4 counterexample: on an unreadable log file `analyze_logs` catches the
error, prints it and returns, and `main` then ends normally — the process
exit code is 0, not non-zero as claimed. -/
theorem unreadable_file_exits_zero :
    (analyze_logs ⟨"app.log", ["error", "warn"], true, true, true,
        some "ops@example.com"⟩ none ⟨some "monitor@example.com", some "pw"⟩
        true HistFile.absent "2024-01-01 00:00:00").1.exitCode = 0 ∧
    (analyze_logs ⟨"app.log", ["error", "warn"], true, true, true,
        some "ops@example.com"⟩ none ⟨some "monitor@example.com", some "pw"⟩
        true HistFile.absent "2024-01-01 00:00:00").1.summaryOut = none :=
  ⟨rfl, rfl⟩

/-- C4 (amended): an unreadable log file is fatal for the log-analysis run:
no summary is produced and no persist, email or beep side effect runs, the
history file is untouched — but the failure is only printed, and the
process exits 0. -/
theorem unreadable_file_aborts_scan (args : LogArgs) (c : Creds)
    (deliveryOk : Bool) (hist : HistFile LogSummary) (ts : String) :
    analyze_logs args none c deliveryOk hist ts
      = (⟨none, false, false, false, false, false, 0⟩, hist) := rfl

/-! ## C8: fault tolerance of the metrics collector -/

/-- C8: the collector is a total function of the five command outputs — no
single failed metric aborts the run — and on unparseable output cpu and
memory default to 0.0 and temperature to absent; but the service status
field carries the raw stripped command output, not the documented
"unknown": `subprocess.getoutput` hands back the shell's error text instead
of raising, so the `except` branch that would substitute "unknown" never
runs. -/
theorem collector_defaults_and_service_text :
    collectSnapshot "top: command not found" "free: command not found"
        "df: command not found" "cat: No such file or directory"
        "sh: 1: systemctl: not found"
      = { cpu_usage_percent := 0, memory_usage_percent := 0,
          disk_usage := "df: command not found",
          cpu_temperature_celsius := none,
          service_status := "sh: 1: systemctl: not found" } ∧
    check_service_status "sh: 1: systemctl: not found" ≠ "unknown" := by
  constructor
  · decide
  · decide

end LogAnalyzer
